import Mathlib

/-!
Shallow embedding of `src/app.py` (PedsSim Bot), a Streamlit chat app that
loads a case table from a CSV export, builds a role-switching system prompt
per case, and relays the transcript to an external model on every turn.

Modelling conventions:
* A CSV cell is `Cell := Option String`; `none` models a pandas `NaN`
  (what `pd.read_csv` yields for an empty cell).  Stringifying a `NaN`
  inside a Python f-string produces the literal text `"nan"` (`fstr`).
* A `DataFrame` is a header list plus a list of rows of cells.
* A pandas row (`Series`) is the association list `columns.zip row`;
  `series["k"]` raises `KeyError` when `k` is not in the index, modelled
  by `Except`.
* Streamlit side effects (`st.error`, caching, rerun) are modelled by the
  constructors of `LoadResult` and by explicit state passing; the fetch
  performed by `pd.read_csv(SHEET_URL)` is an `Except String DataFrame`
  argument (error = any exception raised while fetching/parsing).
-/

set_option maxRecDepth 100000

namespace PedsSim

/-- One CSV cell after parsing: `none` models pandas `NaN` (empty cell). -/
abbrev Cell := Option String

/-- A parsed table: header names plus rows of cells (app.py line 34). -/
structure DataFrame where
  columns : List String
  rows : List (List Cell)
deriving DecidableEq, Repr

/-- The fixed header rename table of `load_cases` (app.py lines 36-53). -/
def rename_map : List (String × String) :=
  [("Case Name", "Case_Name"),
   ("Hidden Diagnosis", "Hidden_Diagnosis"),
   ("Parent Persona", "Parent_Persona"),
   ("Parent_Personae", "Parent_Persona"),
   ("Chief Complaint", "Chief_Complaint"),
   ("HPI Timeline", "HPI_Timeline"),
   ("Symptom Visuals", "Symptom_Visuals"),
   ("Symptom Behavior", "Symptom_Behavior"),
   ("Medical History", "Medical_History"),
   ("Medications", "Medications"),
   ("Jargon Triggers", "Jargon_Triggers"),
   ("Lab Results", "Lab_Results"),
   ("Imaging Results", "Imaging_Results"),
   ("Correct Mgmt", "Correct_Mgmt"),
   ("Critical Pitfalls", "Critical_Pitfalls"),
   ("Educational Pearl", "Educational_Pearl")]

/-- `df.rename(columns=rename_map)` on one header: a label equal to a key of
the dict is replaced by its value, any other label is unchanged (line 55). -/
def renameCol (c : String) : String := (rename_map.lookup c).getD c

/-- `df.columns.str.strip()` on one header (line 56): drop leading and
trailing whitespace characters (Python `str.strip` with no argument). -/
def stripHeader (s : String) : String :=
  String.mk (((s.data.dropWhile Char.isWhitespace).reverse.dropWhile Char.isWhitespace).reverse)

/-- Lines 55-56 of `load_cases`: rename first, then strip whitespace. -/
def normalize (df : DataFrame) : DataFrame :=
  { columns := (df.columns.map renameCol).map stripHeader, rows := df.rows }

/-- Index of a column label (first occurrence, as pandas column lookup). -/
def colIdx (cols : List String) (c : String) : Option Nat :=
  cols.findIdx? (fun x => x = c)

/-- The cell of `row` under column label `c`; `none` when the label is
absent (or the row is short, which pandas pads with `NaN`). -/
def getCell (cols : List String) (row : List Cell) (c : String) : Option Cell :=
  (colIdx cols c).bind (fun i => row.get? i)

/-- Whether a looked-up cell counts as `NaN` for `dropna`. -/
def cellIsNA : Option Cell → Bool
  | some (some _) => false
  | _ => true

/-- `df.dropna(subset=["Case_Name"])` (line 59): keep exactly the rows whose
`Case_Name` cell is not `NaN`. -/
def dropnaCaseName (df : DataFrame) : DataFrame :=
  { columns := df.columns,
    rows := df.rows.filter (fun r => !cellIsNA (getCell df.columns r "Case_Name")) }

/-- The `st.error` text of line 61 (inner quote marks written as escapes). -/
def schemaErrMsg : String :=
  "Error: Could not find \x27Case_Name\x27 even after cleaning. Check Sheet headers."

/-- Outcome of `load_cases`: a good bank, or one of its two caught failure
modes, each of which shows an `st.error` notice and returns an empty frame. -/
inductive LoadResult where
  | bank (df : DataFrame)
  | schemaMismatch (msg : String)
  | connectionError (msg : String)
deriving DecidableEq, Repr

/-- `pd.DataFrame()` (lines 62 and 66). -/
def emptyDF : DataFrame := { columns := [], rows := [] }

/-- `load_cases` (lines 31-66) applied to the result of the CSV fetch:
any exception from the fetch/parse is caught (line 64) and degrades to an
empty frame with a notice; after rename+strip, a missing `Case_Name`
column degrades to an empty frame with the schema notice (lines 60-62);
otherwise the rows lacking a name are dropped (line 59). -/
def load_cases (fetched : Except String DataFrame) : LoadResult :=
  match fetched with
  | Except.error e => LoadResult.connectionError ("Connection Error: " ++ e)
  | Except.ok df0 =>
    let df := normalize df0
    if "Case_Name" ∈ df.columns then LoadResult.bank (dropnaCaseName df)
    else LoadResult.schemaMismatch schemaErrMsg

/-- The dataframe the caller of `load_cases` receives in each outcome. -/
def loadedBank : LoadResult → DataFrame
  | LoadResult.bank df => df
  | LoadResult.schemaMismatch _ => emptyDF
  | LoadResult.connectionError _ => emptyDF

/-- A pandas row: index labels paired with cells (`df.iloc[i]`). -/
abbrev Series := List (String × Cell)

/-- Row `row` of a frame with headers `cols`, as a `Series`. -/
def rowToSeries (cols : List String) (row : List Cell) : Series :=
  cols.zip row

/-- `series[k]` in Python: the value under index label `k`, or a `KeyError`
when the label is absent from the index. -/
def seriesItem (s : Series) (k : String) : Except String Cell :=
  match s.lookup k with
  | some c => Except.ok c
  | none => Except.error ("KeyError: " ++ k)

/-- Python f-string rendering of a cell: a string renders as itself, a
pandas `NaN` renders as the literal text `nan`. -/
def fstr : Cell → String
  | some s => s
  | none => "nan"

/-- The f-string of `build_system_prompt` (lines 72-109) up to and
including the text just before the first interpolation slot (`Tone`). -/
def promptToneHead : String :=
  "\n    ### SYSTEM ROLE\n    You are an Advanced Medical Education Simulator used to train pediatric residents.\n    You must dynamically switch between three distinct roles based on the user\x27s intent.\n    \n    ### ROLE 1: THE PARENT (The Default State)\n    **Trigger:** When the user asks about symptoms, history, feelings, or environment for the patient.\n    **Tone:** "

/-- The rest of the f-string of `build_system_prompt`, from just after the
`Tone` slot to the end, with the remaining thirteen interpolation slots as
arguments (in their order of appearance in lines 82-105). -/
def promptAfterTone (jarg cc hpi vis beh hx meds labs img truth gold pits pearl : String) : String :=
  "\n    **Constraints:**\n    1. You know ONLY what you observe.\n    2. You do NOT understand medical jargon triggers: ["
  ++ jarg ++
  "]. Act confused.\n    3. You never reveal the diagnosis.\n    \n    **Data:**\n    * **CC:** \""
  ++ cc ++
  "\"\n    * **HPI:** "
  ++ hpi ++
  "\n    * **Visuals:** "
  ++ vis ++
  "\n    * **Behavior:** "
  ++ beh ++
  "\n    * **Hx:** "
  ++ hx ++
  "\n    * **Meds:** "
  ++ meds ++
  "\n\n    ### ROLE 2: THE PROCTOR / EMR\n    **Trigger:** Commands like \"Order Labs\", \"Get X-Ray\", \"Check Vitals\". When user states they would like to perform an action like exam or test, provide data, labs or imaging pertinent to that request.\n    **Action:** State \"EMR Record:\" and provide objective data.\n    * **Labs:** State \"Recent Labs:\" and provide "
  ++ labs ++
  "\n    * **Imaging:** State \"Imaging:\" and provide "
  ++ img ++
  "\n\n    ### ROLE 3: THE GRADER\n    **Trigger:** Diagnosis or Admission statements.\n    **Action:** Break character. Provide teaching summary in a narrative form. If a pitfall is encountered, emphasize it and include proper management. Separate the pearl as a distinct discussion item.\n    1. **Truth:** "
  ++ truth ++
  "\n    2. **Gold Standard:** "
  ++ gold ++
  "\n    3. **Pitfalls:** "
  ++ pits ++
  "\n    4. **Pearl:** "
  ++ pearl ++
  "\n    \n    ### IMMEDIATE INSTRUCTION\n    Start by acting as the PARENT. State your Chief Complaint naturally. If non-contributory or irrelevant information is asked for during the session, provide details but be brief. \n    "

/-- The whole f-string of `build_system_prompt` with its fourteen
interpolation slots already rendered to strings. -/
def promptTemplate (tone jarg cc hpi vis beh hx meds labs img truth gold pits pearl : String) : String :=
  promptToneHead ++ tone ++ promptAfterTone jarg cc hpi vis beh hx meds labs img truth gold pits pearl

/-- The fourteen index labels `build_system_prompt` reads from the case
row, in their order of appearance in the f-string. -/
def promptKeys : List String :=
  ["Parent_Persona", "Jargon_Triggers", "Chief_Complaint", "HPI_Timeline",
   "Symptom_Visuals", "Symptom_Behavior", "Medical_History", "Medications",
   "Lab_Results", "Imaging_Results", "Hidden_Diagnosis", "Correct_Mgmt",
   "Critical_Pitfalls", "Educational_Pearl"]

/-- `build_system_prompt(case)` (lines 71-109): evaluates the fourteen
subscript expressions of the f-string in textual order (a missing index
label raises `KeyError`) and renders each cell with f-string semantics
(`NaN` renders as the text `nan`). -/
def build_system_prompt (caseRec : Series) : Except String String := do
  let tone ← seriesItem caseRec "Parent_Persona"
  let jarg ← seriesItem caseRec "Jargon_Triggers"
  let cc ← seriesItem caseRec "Chief_Complaint"
  let hpi ← seriesItem caseRec "HPI_Timeline"
  let vis ← seriesItem caseRec "Symptom_Visuals"
  let beh ← seriesItem caseRec "Symptom_Behavior"
  let hx ← seriesItem caseRec "Medical_History"
  let meds ← seriesItem caseRec "Medications"
  let labs ← seriesItem caseRec "Lab_Results"
  let img ← seriesItem caseRec "Imaging_Results"
  let truth ← seriesItem caseRec "Hidden_Diagnosis"
  let gold ← seriesItem caseRec "Correct_Mgmt"
  let pits ← seriesItem caseRec "Critical_Pitfalls"
  let pearl ← seriesItem caseRec "Educational_Pearl"
  pure (promptTemplate (fstr tone) (fstr jarg) (fstr cc) (fstr hpi) (fstr vis)
    (fstr beh) (fstr hx) (fstr meds) (fstr labs) (fstr img) (fstr truth)
    (fstr gold) (fstr pits) (fstr pearl))

/-- Claim reading of the builder, for comparison only: identical to
`build_system_prompt` except that a missing (`NaN`) attribute value is
rendered as empty text instead of f-string `nan` rendering. -/
def buildPromptEmptyRender (caseRec : Series) : Except String String := do
  let tone ← seriesItem caseRec "Parent_Persona"
  let jarg ← seriesItem caseRec "Jargon_Triggers"
  let cc ← seriesItem caseRec "Chief_Complaint"
  let hpi ← seriesItem caseRec "HPI_Timeline"
  let vis ← seriesItem caseRec "Symptom_Visuals"
  let beh ← seriesItem caseRec "Symptom_Behavior"
  let hx ← seriesItem caseRec "Medical_History"
  let meds ← seriesItem caseRec "Medications"
  let labs ← seriesItem caseRec "Lab_Results"
  let img ← seriesItem caseRec "Imaging_Results"
  let truth ← seriesItem caseRec "Hidden_Diagnosis"
  let gold ← seriesItem caseRec "Correct_Mgmt"
  let pits ← seriesItem caseRec "Critical_Pitfalls"
  let pearl ← seriesItem caseRec "Educational_Pearl"
  pure (promptTemplate (tone.getD "") (jarg.getD "") (cc.getD "") (hpi.getD "")
    (vis.getD "") (beh.getD "") (hx.getD "") (meds.getD "") (labs.getD "")
    (img.getD "") (truth.getD "") (gold.getD "") (pits.getD "") (pearl.getD ""))

/-- One transcript entry of `st.session_state.messages`: a dict with a
`role` (`"user"` or `"model"`) and a `content` string. -/
structure Msg where
  role : String
  content : String
deriving DecidableEq, Repr

/-- One entry of the message list sent to the model: a dict with a `role`
and a `parts` list (lines 180-184). -/
structure GMessage where
  role : String
  parts : List String
deriving DecidableEq, Repr

/-- The per-session Streamlit state the chat logic reads and writes:
`st.session_state.messages`, `st.session_state.current_case_data` and
`st.session_state.chat_started`. -/
structure SessionState where
  messages : List Msg
  current_case_data : Series
  chat_started : Bool
deriving DecidableEq, Repr

/-- Lines 182-184: a transcript entry labeled for the model API
(`"user" if msg["role"] == "user" else "model"`). -/
def labelMsg (m : Msg) : GMessage :=
  { role := if m.role = "user" then "user" else "model", parts := [m.content] }

/-- Lines 180-184: the message list sent to the model — the freshly built
system prompt first, then every transcript entry in order. -/
def geminiHistory (sys : String) (msgs : List Msg) : List GMessage :=
  { role := "user", parts := [sys] } :: msgs.map labelMsg

/-- Lines 172-204, the handling of one submitted user turn; `gen` is the
external `model.generate_content` call (`Except.error` = any exception it
raises).  The user turn is appended first (line 174); then the system
prompt is rebuilt from the current case (line 179) and the history
assembled (lines 180-184); the `try` of lines 187-204 catches only
exceptions of the `gen` call (and of the audio path, not modelled), so a
`gen` failure leaves the state with the user turn and no reply, while a
`KeyError` escaping from `build_system_prompt` propagates (it is raised
at line 179, outside the `try`).  Returns the new state together with the
history that was sent, for specification purposes. -/
def handle_prompt (st : SessionState) (prompt : String)
    (gen : List GMessage → Except String String) :
    Except String (SessionState × List GMessage) :=
  let msgs1 := st.messages ++ [{ role := "user", content := prompt }]
  match build_system_prompt st.current_case_data with
  | Except.error e => Except.error e
  | Except.ok sys =>
    let hist := geminiHistory sys msgs1
    match gen hist with
    | Except.ok reply =>
        Except.ok ({ st with messages := msgs1 ++ [{ role := "model", content := reply }] }, hist)
    | Except.error _ =>
        Except.ok ({ st with messages := msgs1 }, hist)

/-- Line 130: `df[df["Case_Name"] == selected_case_name].iloc[0]` — the
first row in table order whose `Case_Name` cell equals the selected name
(`NaN` compares unequal); `none` models the `IndexError` of `iloc[0]`
when no row matches. -/
def selectCase (df : DataFrame) (name : String) : Option Series :=
  ((df.rows.filter
      (fun r => decide (getCell df.columns r "Case_Name" = some (some name)))).head?).map
    (rowToSeries df.columns)

/-- Lines 128-132, the `Start / Reset Case` button handler: clear the
transcript, bind the selected case row, mark the chat started. -/
def startResetCase (_st : SessionState) (df : DataFrame) (name : String) :
    Option SessionState :=
  (selectCase df name).map
    (fun s => { messages := [], current_case_data := s, chat_started := true })

/-- A conversation-state mutation: `reset` is the pair of assignments of
the button handler (lines 129-131), `append` is one
`st.session_state.messages.append(...)` (line 174 or 191). -/
inductive COp where
  | reset (c : Series)
  | append (m : Msg)
deriving DecidableEq, Repr

/-- Effect of one mutation on the session state. -/
def applyOp : SessionState → COp → SessionState
  | _, COp.reset c => { messages := [], current_case_data := c, chat_started := true }
  | st, COp.append m => { st with messages := st.messages ++ [m] }

/-- Effect of a sequence of mutations, in order. -/
def runOps (st : SessionState) (ops : List COp) : SessionState :=
  ops.foldl applyOp st

/-- The messages appended by a mutation sequence (used to state what the
transcript holds after the most recent reset). -/
def appendsOf (ops : List COp) : List Msg :=
  ops.filterMap (fun op => match op with
    | COp.append m => some m
    | COp.reset _ => none)

/-- A concrete fully populated case row, used to instantiate theorems. -/
def caseA : Series :=
  [("Case_Name", some "Asthma Flare"),
   ("Hidden_Diagnosis", some "asthma"),
   ("Parent_Persona", some "worried"),
   ("Chief_Complaint", some "cough"),
   ("HPI_Timeline", some "2 days"),
   ("Symptom_Visuals", some "pale"),
   ("Symptom_Behavior", some "tired"),
   ("Medical_History", some "eczema"),
   ("Medications", some "albuterol prn"),
   ("Jargon_Triggers", some "auscultation"),
   ("Lab_Results", some "CBC normal"),
   ("Imaging_Results", some "CXR clear"),
   ("Correct_Mgmt", some "bronchodilator"),
   ("Critical_Pitfalls", some "missing wheeze"),
   ("Educational_Pearl", some "reassess often")]

/-- The instruction text `build_system_prompt` produces for `caseA`. -/
def sysA : String :=
  promptTemplate "worried" "auscultation" "cough" "2 days" "pale" "tired"
    "eczema" "albuterol prn" "CBC normal" "CXR clear" "asthma"
    "bronchodilator" "missing wheeze" "reassess often"

/-- `caseA` with its name present but its `Parent_Persona` value `NaN`
(what an empty spreadsheet cell parses to). -/
def caseNaN : Series :=
  [("Case_Name", some "Asthma Flare"),
   ("Hidden_Diagnosis", some "asthma"),
   ("Parent_Persona", none),
   ("Chief_Complaint", some "cough"),
   ("HPI_Timeline", some "2 days"),
   ("Symptom_Visuals", some "pale"),
   ("Symptom_Behavior", some "tired"),
   ("Medical_History", some "eczema"),
   ("Medications", some "albuterol prn"),
   ("Jargon_Triggers", some "auscultation"),
   ("Lab_Results", some "CBC normal"),
   ("Imaging_Results", some "CXR clear"),
   ("Correct_Mgmt", some "bronchodilator"),
   ("Critical_Pitfalls", some "missing wheeze"),
   ("Educational_Pearl", some "reassess often")]

/-- `caseA` with its name present but no `Parent_Persona` attribute at
all (the column absent from the loaded table). -/
def caseNoKey : Series :=
  [("Case_Name", some "Asthma Flare"),
   ("Hidden_Diagnosis", some "asthma"),
   ("Chief_Complaint", some "cough"),
   ("HPI_Timeline", some "2 days"),
   ("Symptom_Visuals", some "pale"),
   ("Symptom_Behavior", some "tired"),
   ("Medical_History", some "eczema"),
   ("Medications", some "albuterol prn"),
   ("Jargon_Triggers", some "auscultation"),
   ("Lab_Results", some "CBC normal"),
   ("Imaging_Results", some "CXR clear"),
   ("Correct_Mgmt", some "bronchodilator"),
   ("Critical_Pitfalls", some "missing wheeze"),
   ("Educational_Pearl", some "reassess often")]

/-- A second concrete case row, for case-change scenarios. -/
def caseB : Series :=
  [("Case_Name", some "Colic"),
   ("Hidden_Diagnosis", some "colic"),
   ("Parent_Persona", some "exhausted"),
   ("Chief_Complaint", some "crying"),
   ("HPI_Timeline", some "3 weeks"),
   ("Symptom_Visuals", some "red face"),
   ("Symptom_Behavior", some "inconsolable"),
   ("Medical_History", some "term birth"),
   ("Medications", some "simethicone"),
   ("Jargon_Triggers", some "borborygmi"),
   ("Lab_Results", some "not indicated"),
   ("Imaging_Results", some "not indicated"),
   ("Correct_Mgmt", some "soothing techniques"),
   ("Critical_Pitfalls", some "overtesting"),
   ("Educational_Pearl", some "rule of threes")]

/-- A session state just after starting `caseA`, used to instantiate
theorems. -/
def stW : SessionState :=
  { messages := [], current_case_data := caseA, chat_started := true }

/-- A model-gateway stand-in that replies normally. -/
def genOk : List GMessage → Except String String := fun _ => Except.ok "hello"

/-- A model-gateway stand-in that raises a transport error. -/
def genBoom : List GMessage → Except String String := fun _ => Except.error "boom"

instance {α β : Type} [DecidableEq α] [DecidableEq β] : DecidableEq (Except α β) :=
  fun a b =>
    match a, b with
    | Except.ok x, Except.ok y =>
        if h : x = y then isTrue (by rw [h])
        else isFalse (fun hc => h (Except.ok.inj hc))
    | Except.error x, Except.error y =>
        if h : x = y then isTrue (by rw [h])
        else isFalse (fun hc => h (Except.error.inj hc))
    | Except.ok _, Except.error _ => isFalse (fun hc => Except.noConfusion hc)
    | Except.error _, Except.ok _ => isFalse (fun hc => Except.noConfusion hc)

/-- Claim C1 (amended): for every Case Record whose index carries all
fourteen prompt attributes, the prompt builder is total (building never
raises), and an attribute that is present but has a missing (`NaN`) value
renders as the literal placeholder text `nan` — not as empty text; a
record lacking one of the fourteen attributes entirely makes the builder
raise a `KeyError` (see the counterexample). -/
theorem c1_builder_total_nan_renders_placeholder (s : Series)
    (h : ∀ k ∈ promptKeys, (s.lookup k).isSome) :
    ∃ t, build_system_prompt s = Except.ok t ∧
      (s.lookup "Parent_Persona" = some none →
        ∃ rest, t = promptToneHead ++ "nan" ++ rest) := by
  obtain ⟨v1, e1⟩ := Option.isSome_iff_exists.mp (h "Parent_Persona" (by simp [promptKeys]))
  obtain ⟨v2, e2⟩ := Option.isSome_iff_exists.mp (h "Jargon_Triggers" (by simp [promptKeys]))
  obtain ⟨v3, e3⟩ := Option.isSome_iff_exists.mp (h "Chief_Complaint" (by simp [promptKeys]))
  obtain ⟨v4, e4⟩ := Option.isSome_iff_exists.mp (h "HPI_Timeline" (by simp [promptKeys]))
  obtain ⟨v5, e5⟩ := Option.isSome_iff_exists.mp (h "Symptom_Visuals" (by simp [promptKeys]))
  obtain ⟨v6, e6⟩ := Option.isSome_iff_exists.mp (h "Symptom_Behavior" (by simp [promptKeys]))
  obtain ⟨v7, e7⟩ := Option.isSome_iff_exists.mp (h "Medical_History" (by simp [promptKeys]))
  obtain ⟨v8, e8⟩ := Option.isSome_iff_exists.mp (h "Medications" (by simp [promptKeys]))
  obtain ⟨v9, e9⟩ := Option.isSome_iff_exists.mp (h "Lab_Results" (by simp [promptKeys]))
  obtain ⟨v10, e10⟩ := Option.isSome_iff_exists.mp (h "Imaging_Results" (by simp [promptKeys]))
  obtain ⟨v11, e11⟩ := Option.isSome_iff_exists.mp (h "Hidden_Diagnosis" (by simp [promptKeys]))
  obtain ⟨v12, e12⟩ := Option.isSome_iff_exists.mp (h "Correct_Mgmt" (by simp [promptKeys]))
  obtain ⟨v13, e13⟩ := Option.isSome_iff_exists.mp (h "Critical_Pitfalls" (by simp [promptKeys]))
  obtain ⟨v14, e14⟩ := Option.isSome_iff_exists.mp (h "Educational_Pearl" (by simp [promptKeys]))
  refine ⟨promptTemplate (fstr v1) (fstr v2) (fstr v3) (fstr v4) (fstr v5) (fstr v6)
      (fstr v7) (fstr v8) (fstr v9) (fstr v10) (fstr v11) (fstr v12) (fstr v13) (fstr v14),
      ?_, ?_⟩
  · simp [build_system_prompt, seriesItem, e1, e2, e3, e4, e5, e6, e7, e8, e9, e10,
      e11, e12, e13, e14]
    rfl
  · intro hp
    rw [e1] at hp
    obtain rfl : v1 = none := Option.some.inj hp
    exact ⟨promptAfterTone (fstr v2) (fstr v3) (fstr v4) (fstr v5) (fstr v6) (fstr v7)
      (fstr v8) (fstr v9) (fstr v10) (fstr v11) (fstr v12) (fstr v13) (fstr v14), rfl⟩

/-- Claim C1 as stated is false on the code: for the concrete record
`caseNaN` (name present, `Parent_Persona` value missing) the built text
differs from the claim's empty-text rendering (the slot holds `nan`), and
for the record `caseNoKey` (name present, `Parent_Persona` attribute
absent from the index) building raises a `KeyError` instead of
succeeding. -/
theorem c1_counterexample :
    build_system_prompt caseNaN ≠ buildPromptEmptyRender caseNaN ∧
    build_system_prompt caseNoKey = Except.error ("KeyError: " ++ "Parent_Persona") :=
  ⟨by decide, rfl⟩

/-- Witness for the amended claim C1 at the concrete record `caseNaN`. -/
theorem c1_witness :
    ∃ t, build_system_prompt caseNaN = Except.ok t ∧
      (caseNaN.lookup "Parent_Persona" = some none →
        ∃ rest, t = promptToneHead ++ "nan" ++ rest) :=
  c1_builder_total_nan_renders_placeholder caseNaN (by decide)

/-- Helper: whatever the external call returns, the history a successful
`handle_prompt` sent is the freshly assembled one. -/
theorem handle_prompt_hist_eq (st : SessionState) (p : String)
    (gen : List GMessage → Except String String) (sys : String)
    (st2 : SessionState) (hist : List GMessage)
    (hb : build_system_prompt st.current_case_data = Except.ok sys)
    (hr : handle_prompt st p gen = Except.ok (st2, hist)) :
    hist = geminiHistory sys (st.messages ++ [{ role := "user", content := p }]) := by
  cases hg : gen (geminiHistory sys (st.messages ++ [{ role := "user", content := p }])) with
  | ok reply =>
    simp [handle_prompt, hb, hg] at hr
    exact hr.2.symm
  | error e =>
    simp [handle_prompt, hb, hg] at hr
    exact hr.2.symm

/-- Claim C2: the Instruction Text is a pure function of the Case Record,
re-derived on every turn and never cached: whenever handling a turn
succeeds, the first message of the list sent to the model carries exactly
the instruction built from the state's current case data — so a change of
the active case's values between two turns makes the later turn send the
instruction built from the changed values. -/
theorem c2_instruction_rebuilt_every_turn (st : SessionState) (p : String)
    (gen : List GMessage → Except String String) (sys : String)
    (st2 : SessionState) (hist : List GMessage)
    (hb : build_system_prompt st.current_case_data = Except.ok sys)
    (hr : handle_prompt st p gen = Except.ok (st2, hist)) :
    hist.head? = some { role := "user", parts := [sys] } := by
  rw [handle_prompt_hist_eq st p gen sys st2 hist hb hr]
  rfl

/-- Witness for C2: a turn handled in a state bound to `caseB` sends, as
its first message, the instruction built from `caseB` — not the one built
from `caseA` that an earlier turn in this session sent. -/
theorem c2_witness :
    (geminiHistory
        (promptTemplate "exhausted" "borborygmi" "crying" "3 weeks" "red face"
          "inconsolable" "term birth" "simethicone" "not indicated" "not indicated"
          "colic" "soothing techniques" "overtesting" "rule of threes")
        ([{ role := "user", content := "hi" }, { role := "model", content := "hello" },
          { role := "user", content := "tell me more" }])).head? =
      some { role := "user",
             parts := [promptTemplate "exhausted" "borborygmi" "crying" "3 weeks" "red face"
               "inconsolable" "term birth" "simethicone" "not indicated" "not indicated"
               "colic" "soothing techniques" "overtesting" "rule of threes"] } :=
  c2_instruction_rebuilt_every_turn
    { messages := [{ role := "user", content := "hi" }, { role := "model", content := "hello" }],
      current_case_data := caseB, chat_started := true }
    "tell me more" genOk
    (promptTemplate "exhausted" "borborygmi" "crying" "3 weeks" "red face"
      "inconsolable" "term birth" "simethicone" "not indicated" "not indicated"
      "colic" "soothing techniques" "overtesting" "rule of threes")
    _ _ rfl rfl

/-- Claim C3: if the model call raises after the user turn was appended,
the handler still returns normally (no exception escapes), the state
keeps the user turn, no reply turn is appended, and the rest of the state
is unchanged, so the session accepts the next turn. -/
theorem c3_gen_error_keeps_user_turn_no_reply (st : SessionState) (p : String)
    (gen : List GMessage → Except String String) (sys e : String)
    (hb : build_system_prompt st.current_case_data = Except.ok sys)
    (hg : gen (geminiHistory sys (st.messages ++ [{ role := "user", content := p }])) =
      Except.error e) :
    handle_prompt st p gen =
      Except.ok
        ({ st with messages := st.messages ++ [{ role := "user", content := p }] },
         geminiHistory sys (st.messages ++ [{ role := "user", content := p }])) := by
  simp [handle_prompt, hb, hg]

/-- Witness for C3: a transport error at the concrete state `stW` leaves
exactly the user turn in the transcript and returns normally. -/
theorem c3_witness :
    handle_prompt stW "hi" genBoom =
      Except.ok
        ({ messages := [{ role := "user", content := "hi" }],
           current_case_data := caseA, chat_started := true },
         geminiHistory sysA [{ role := "user", content := "hi" }]) :=
  c3_gen_error_keeps_user_turn_no_reply stW "hi" genBoom sysA "boom" rfl rfl

/-- Claim C8: the message list sent on a model call is exactly one first
message carrying the freshly built Instruction Text, followed by every
Conversation State turn (including the just-appended user turn) in append
order, each labeled with its speaker role. -/
theorem c8_history_instruction_then_labeled_turns (st : SessionState) (p : String)
    (gen : List GMessage → Except String String) (sys : String)
    (st2 : SessionState) (hist : List GMessage)
    (hb : build_system_prompt st.current_case_data = Except.ok sys)
    (hr : handle_prompt st p gen = Except.ok (st2, hist)) :
    hist = ({ role := "user", parts := [sys] } : GMessage) ::
      (st.messages ++ [({ role := "user", content := p } : Msg)]).map labelMsg := by
  rw [handle_prompt_hist_eq st p gen sys st2 hist hb hr]
  rfl

/-- Witness for C8 at a concrete two-turn state. -/
theorem c8_witness :
    geminiHistory sysA
        ([{ role := "user", content := "hi" }, { role := "model", content := "hello" },
          { role := "user", content := "order labs" }]) =
      ({ role := "user", parts := [sysA] } : GMessage) ::
        ([{ role := "user", content := "hi" }, { role := "model", content := "hello" },
          { role := "user", content := "order labs" }] : List Msg).map labelMsg :=
  c8_history_instruction_then_labeled_turns
    { messages := [{ role := "user", content := "hi" }, { role := "model", content := "hello" }],
      current_case_data := caseA, chat_started := true }
    "order labs" genOk sysA _ _ rfl rfl

/-- Helper: a reset-free mutation sequence only appends its messages, in
order, and touches nothing else. -/
theorem runOps_no_reset (ops : List COp)
    (h : ∀ c : Series, COp.reset c ∉ ops) :
    ∀ (ms : List Msg) (cd : Series) (b : Bool),
      runOps { messages := ms, current_case_data := cd, chat_started := b } ops =
        { messages := ms ++ appendsOf ops, current_case_data := cd, chat_started := b } := by
  induction ops with
  | nil => intro ms cd b; simp [runOps, appendsOf]
  | cons op rest ih =>
    intro ms cd b
    cases op with
    | reset c => exact absurd (List.mem_cons_self _ _) (h c)
    | append m =>
      have hrest : ∀ c : Series, COp.reset c ∉ rest :=
        fun c hc => h c (List.mem_cons_of_mem _ hc)
      have step := ih hrest (ms ++ [m]) cd b
      simp only [runOps, List.foldl_cons, applyOp] at step ⊢
      rw [step]
      simp [appendsOf]

/-- Claim C7: after any prefix of mutations, a `reset` bound to case `c`
followed by any reset-free sequence of appends yields a Conversation
State bound to `c` whose turns are exactly the messages appended after
that reset — in particular, a reset right after two appends leaves a
transcript of length 0. -/
theorem c7_reset_scopes_transcript (st : SessionState) (c : Series)
    (ops1 ops2 : List COp)
    (h : ∀ cx : Series, COp.reset cx ∉ ops2) :
    runOps st (ops1 ++ COp.reset c :: ops2) =
      { messages := appendsOf ops2, current_case_data := c, chat_started := true } := by
  have split : runOps st (ops1 ++ COp.reset c :: ops2) =
      runOps { messages := [], current_case_data := c, chat_started := true } ops2 := by
    simp [runOps, List.foldl_append, applyOp]
  rw [split, runOps_no_reset ops2 h]
  simp

/-- Witness for C7, the spec's scenario: append `user "hi"`, append
`agent "hello"`, then reset to a new case — the transcript has length 0
and the new case is bound. -/
theorem c7_witness :
    runOps stW
        [COp.append { role := "user", content := "hi" },
         COp.append { role := "model", content := "hello" },
         COp.reset caseB] =
      { messages := [], current_case_data := caseB, chat_started := true } :=
  c7_reset_scopes_transcript stW caseB
    [COp.append { role := "user", content := "hi" },
     COp.append { role := "model", content := "hello" }]
    [] (by simp)

/-- Claim C9: when several rows share the selected name, the Start/Reset
action binds the first matching row in table order — any row before it
does not match, and whatever follows (including later duplicates) is
never bound. -/
theorem c9_first_matching_row_wins (df : DataFrame) (name : String)
    (pre post : List (List Cell)) (r : List Cell)
    (hrows : df.rows = pre ++ r :: post)
    (hpre : ∀ r2 ∈ pre, ¬ (getCell df.columns r2 "Case_Name" = some (some name)))
    (hr : getCell df.columns r "Case_Name" = some (some name)) :
    selectCase df name = some (rowToSeries df.columns r) := by
  unfold selectCase
  rw [hrows, List.filter_append]
  have h1 : pre.filter
      (fun r2 => decide (getCell df.columns r2 "Case_Name" = some (some name))) = [] := by
    rw [List.filter_eq_nil_iff]
    intro a ha
    simpa using hpre a ha
  rw [h1]
  rw [List.filter_cons_of_pos (by simpa using hr)]
  rfl

/-- A table whose two rows share the name `A`, for the C9 witness. -/
def dfDup : DataFrame :=
  { columns := ["Case_Name", "Parent_Persona"],
    rows := [[some "A", some "calm"], [some "A", some "angry"]] }

/-- Witness for C9: with two rows named `A`, the first one (persona
`calm`) is bound, not the later duplicate. -/
theorem c9_witness :
    selectCase dfDup "A" =
      some [("Case_Name", some "A"), ("Parent_Persona", some "calm")] :=
  c9_first_matching_row_wins dfDup "A" [] [[some "A", some "angry"]]
    [some "A", some "calm"] rfl (by simp) (by decide)

/-- Helper: facts about each entry of the rename table — the raw spelling
renames to its canonical name, the canonical name is already stripped,
and a whitespace-padded raw spelling misses the rename dict (rename runs
on exact labels) but strips back to the raw spelling. -/
theorem rename_map_entry_facts (raw canon : String)
    (h : (raw, canon) ∈ rename_map) :
    renameCol raw = canon ∧ stripHeader canon = canon ∧
    renameCol (" " ++ raw ++ " ") = " " ++ raw ++ " " ∧
    stripHeader (" " ++ raw ++ " ") = raw := by
  fin_cases h <;> exact ⟨by decide, by decide, by decide, by decide⟩

/-- Claim C4: for every raw header spelling in the rename table (with the
misspelling `Parent_Personae` among them), normalizing a table that uses
that spelling leaves every row's values untouched and exposes the column
at the same position under its canonical name only — the raw spelling is
no longer a column name (given that no other header normalizes to the raw
spelling). -/
theorem c4_rename_table_canonicalizes (raw canon : String) (df : DataFrame)
    (j : Nat)
    (hmem : (raw, canon) ∈ rename_map)
    (hj : df.columns[j]? = some raw)
    (hother : ∀ colName ∈ df.columns, stripHeader (renameCol colName) ≠ raw) :
    (normalize df).rows = df.rows ∧
    (normalize df).columns[j]? = some canon ∧
    raw ∉ (normalize df).columns := by
  obtain ⟨h1, h2, -, -⟩ := rename_map_entry_facts raw canon hmem
  refine ⟨rfl, ?_, ?_⟩
  · simp [normalize, List.getElem?_map, hj, h1, h2]
  · intro hmem2
    simp only [normalize, List.map_map, List.mem_map, Function.comp] at hmem2
    obtain ⟨c, hc, he⟩ := hmem2
    exact hother c hc he

/-- A table using the observed misspelling `Parent_Personae`, for the C4
witness. -/
def dfPersonae : DataFrame :=
  { columns := ["Case_Name", "Parent_Personae"],
    rows := [[some "A", some "gruff"]] }

/-- Witness for C4, the spec's scenario: a header `Parent_Personae` with
a value is normalized to `Parent_Persona` carrying that value, and
`Parent_Personae` is gone. -/
theorem c4_witness :
    (normalize dfPersonae).rows = dfPersonae.rows ∧
    (normalize dfPersonae).columns[1]? = some "Parent_Persona" ∧
    "Parent_Personae" ∉ (normalize dfPersonae).columns :=
  c4_rename_table_canonicalizes "Parent_Personae" "Parent_Persona" dfPersonae 1
    (by decide) rfl (by decide)

/-- Claim C10: header renaming runs before whitespace trimming — a
whitespace-padded known spelling misses the rename dict and is only
stripped back to the raw spelling; consequently a table whose name header
is ` Case Name ` (and no header normalizing to `Case_Name`) loads to the
schema-mismatch outcome with an empty bank. -/
theorem c10_rename_before_strip (raw canon : String)
    (hmem : (raw, canon) ∈ rename_map) :
    renameCol (" " ++ raw ++ " ") = " " ++ raw ++ " " ∧
    stripHeader (renameCol (" " ++ raw ++ " ")) = raw ∧
    (∀ cols rows, " Case Name " ∈ cols →
      "Case_Name" ∉ (cols.map renameCol).map stripHeader →
      load_cases (Except.ok { columns := cols, rows := rows }) =
        LoadResult.schemaMismatch schemaErrMsg ∧
      loadedBank (load_cases (Except.ok { columns := cols, rows := rows })) = emptyDF) := by
  obtain ⟨-, -, h3, h4⟩ := rename_map_entry_facts raw canon hmem
  refine ⟨h3, ?_, ?_⟩
  · rw [h3]; exact h4
  · intro cols rows _ hno
    have : load_cases (Except.ok { columns := cols, rows := rows }) =
        LoadResult.schemaMismatch schemaErrMsg := by
      simp only [load_cases, normalize]
      rw [if_neg hno]
    exact ⟨this, by rw [this]; rfl⟩

/-- Witness for C10 at the padded spelling ` Case Name ` itself. -/
theorem c10_witness :
    renameCol (" " ++ "Case Name" ++ " ") = " " ++ "Case Name" ++ " " ∧
    stripHeader (renameCol (" " ++ "Case Name" ++ " ")) = "Case Name" ∧
    (load_cases (Except.ok { columns := [" Case Name "], rows := [[some "A"]] }) =
        LoadResult.schemaMismatch schemaErrMsg ∧
      loadedBank (load_cases (Except.ok { columns := [" Case Name "], rows := [[some "A"]] })) =
        emptyDF) :=
  ⟨(c10_rename_before_strip "Case Name" "Case_Name" (by decide)).1,
   (c10_rename_before_strip "Case Name" "Case_Name" (by decide)).2.1,
   (c10_rename_before_strip "Case Name" "Case_Name" (by decide)).2.2
     [" Case Name "] [[some "A"]] (by decide) (by decide)⟩

/-- Claim C6: `load_cases` never raises to its caller — a fetch/parse
error degrades to the connection notice and an empty bank; a table whose
normalized headers lack `Case_Name` degrades to the distinct
schema-mismatch notice and an empty bank; and the two conditions are
distinct outcomes. -/
theorem c6_load_degrades_never_raises :
    (∀ e, load_cases (Except.error e) =
        LoadResult.connectionError ("Connection Error: " ++ e) ∧
      loadedBank (load_cases (Except.error e)) = emptyDF) ∧
    (∀ df, "Case_Name" ∉ (normalize df).columns →
      load_cases (Except.ok df) = LoadResult.schemaMismatch schemaErrMsg ∧
      loadedBank (load_cases (Except.ok df)) = emptyDF) ∧
    (∀ e m, LoadResult.connectionError e ≠ LoadResult.schemaMismatch m) := by
  refine ⟨fun e => ⟨rfl, rfl⟩, fun df hno => ?_, fun e m hc => LoadResult.noConfusion hc⟩
  have : load_cases (Except.ok df) = LoadResult.schemaMismatch schemaErrMsg := by
    simp only [load_cases]
    rw [if_neg hno]
  exact ⟨this, by rw [this]; rfl⟩

/-- Witness for C6 at a concrete failed fetch and a concrete table with
no recognizable name header. -/
theorem c6_witness :
    load_cases (Except.error "timeout") =
      LoadResult.connectionError ("Connection Error: " ++ "timeout") ∧
    load_cases (Except.ok { columns := ["Name"], rows := [] }) =
      LoadResult.schemaMismatch schemaErrMsg :=
  ⟨(c6_load_degrades_never_raises.1 "timeout").1,
   (c6_load_degrades_never_raises.2.1 { columns := ["Name"], rows := [] } (by decide)).1⟩

/-- Claim C5: in a successful load, a row of the source table whose
canonical name cell is missing (`NaN`) is excluded from the bank, and a
row whose name cell holds a value is retained no matter what its other
cells hold. -/
theorem c5_dropna_name_rows (df b : DataFrame)
    (hl : load_cases (Except.ok df) = LoadResult.bank b)
    (r : List Cell) (hr : r ∈ df.rows) :
    (cellIsNA (getCell (normalize df).columns r "Case_Name") = true → r ∉ b.rows) ∧
    (cellIsNA (getCell (normalize df).columns r "Case_Name") = false → r ∈ b.rows) := by
  simp only [load_cases] at hl
  by_cases hc : "Case_Name" ∈ (normalize df).columns
  · rw [if_pos hc] at hl
    have hb : b = dropnaCaseName (normalize df) := (LoadResult.bank.inj hl).symm
    subst hb
    constructor <;> intro hna
    · intro hmem
      simp only [dropnaCaseName, List.mem_filter] at hmem
      rw [hna] at hmem
      simp at hmem
    · simp only [dropnaCaseName, List.mem_filter]
      exact ⟨hr, by rw [hna]; rfl⟩
  · rw [if_neg hc] at hl
    exact LoadResult.noConfusion hl

/-- A table with one named row full of holes and one nameless row full of
values, for the C5 witness. -/
def dfNames : DataFrame :=
  { columns := ["Case Name", "Parent Persona"],
    rows := [[some "A", none], [none, some "calm"]] }

/-- Witness for C5: the nameless row is excluded, the named row with an
empty persona is retained. -/
theorem c5_witness :
    ([none, some "calm"] : List Cell) ∉ (dropnaCaseName (normalize dfNames)).rows ∧
    ([some "A", none] : List Cell) ∈ (dropnaCaseName (normalize dfNames)).rows :=
  ⟨(c5_dropna_name_rows dfNames (dropnaCaseName (normalize dfNames)) rfl
      [none, some "calm"] (by decide)).1 (by decide),
   (c5_dropna_name_rows dfNames (dropnaCaseName (normalize dfNames)) rfl
      [some "A", none] (by decide)).2 (by decide)⟩

end PedsSim
